import Mathlib

/-!
# Verification of the Heart-of-the-Blockchain donation pipeline

Shallow embedding of the donation-record core of the
`HOBPulse/Heart-of-the-Blockchain` Solana program
(`programs/src/instructions/{donate_compressed,donate,withdraw,init_campaign}.rs`
and the test helper `extract_leaf_components` in
`ZK-STACK/tests/test_leaf_formatting.rs`).

Modelling conventions:
* `u64` values are `Nat` together with explicit `< 2^64` bounds (or `% 2^64`
  where the Rust source performs an unchecked, hence wrapping, addition);
* `i64` values are `Int` with explicit two's-complement conversion at the
  byte boundary;
* byte strings (`Vec<u8>`, `&[u8]`, `[u8; N]`) are `List Nat` whose elements
  are intended `< 256`, with the bound added as a hypothesis when a theorem
  needs it; `Pubkey` is an opaque 32-byte string, also `List Nat`;
* fallible Rust functions returning `Result<T>` become `Except ErrorCode T`;
* external effects are explicit parameters: the outcome of a Light-Protocol
  CPI (`batch_append`, `transfer_checked`) is a `Bool` argument, the Solana
  clock (`Clock::get()?.unix_timestamp`) is an `Int` argument;
* Anchor account mutation (`&mut self.campaign_account_info`) becomes
  explicit state passing: each instruction returns the post-call account
  state (also on error, so partial mutation is observable) together with its
  `Result`.
-/

deriving instance DecidableEq for Except

namespace HOB

/-- Little-endian byte encoding of a natural number into `k` bytes
(the embedding of Rust `u64::to_le_bytes` with `k = 8`). -/
def natToLeBytes : Nat → Nat → List Nat
  | 0, _ => []
  | k + 1, n => n % 256 :: natToLeBytes k (n / 256)

/-- Little-endian reading of a byte string as a natural number
(the embedding of Rust `u64::from_le_bytes`). -/
def leBytesToNat : List Nat → Nat
  | [] => 0
  | b :: bs => b + 256 * leBytesToNat bs

/-- Little-endian byte encoding of an `i64` (two's complement),
embedding Rust `i64::to_le_bytes`. -/
def i64ToLeBytes (t : Int) : List Nat :=
  natToLeBytes 8 (t % (2 ^ 64 : Int)).toNat

/-- Little-endian reading of 8 bytes as an `i64` (two's complement),
embedding Rust `i64::from_le_bytes`. -/
def leBytesToInt (bs : List Nat) : Int :=
  if leBytesToNat bs < 2 ^ 63 then (leBytesToNat bs : Int)
  else (leBytesToNat bs : Int) - 2 ^ 64

/-- Rust `u64::checked_add`: the sum when it fits in 64 bits, `none` on
overflow. -/
def checkedAddU64 (a b : Nat) : Option Nat :=
  if a + b < 2 ^ 64 then some (a + b) else none

/-- Donation data embedded in the ZK proof
(`DonationData` in `donate_compressed.rs`). -/
structure DonationData where
  amount : Nat
  donor_commitment : List Nat
  timestamp : Int
  deriving DecidableEq, Repr

/-- A leaf in the Merkle tree (`DonationLeaf` in `donate_compressed.rs`). -/
structure DonationLeaf where
  amount : Nat
  donor_commitment : List Nat
  timestamp : Int
  campaign_id : Nat
  deriving DecidableEq, Repr

/-- `DonationLeaf::new`: build a leaf from donation data and a campaign id. -/
def DonationLeaf.new (donation : DonationData) (campaign_id : Nat) : DonationLeaf :=
  { amount := donation.amount
    donor_commitment := donation.donor_commitment
    timestamp := donation.timestamp
    campaign_id := campaign_id }

/-- `DonationLeaf::serialize`: concatenate `amount (LE) ∥ donor_commitment ∥
timestamp (LE) ∥ campaign_id (LE)`; the Rust function is infallible (always
`Ok`), so the embedding returns the bytes directly. -/
def DonationLeaf.serialize (l : DonationLeaf) : List Nat :=
  natToLeBytes 8 l.amount ++ l.donor_commitment
    ++ i64ToLeBytes l.timestamp ++ natToLeBytes 8 l.campaign_id

/-- Response data tracked after the `batch_append` CPI
(`MerkleTreeUpdate` in `donate_compressed.rs`). -/
structure MerkleTreeUpdate where
  new_merkle_root : List Nat
  leaf_index : Nat
  timestamp : Int
  deriving DecidableEq, Repr

/-- The error codes of `donate_compressed.rs` (`#[error_code] enum ErrorCode`). -/
inductive ErrorCode where
  | InvalidProofData
  | InvalidProofFormat
  | MerkleTreeUpdateFailed
  | CampaignUpdateFailed
  | ArithmeticOverflow
  deriving DecidableEq, Repr

/-- The campaign account (`CampaignInfo` in `state/campaign_info.rs`).
The fields `title`, `description`, `mint`, `token_account` and `merkle_tree`
are carried by the Rust account but never read or written by the instruction
bodies modelled here (they only participate in Anchor account constraints),
so the embedding keeps the fields the instruction bodies touch, plus
`creator`, which `withdraw` reads. -/
structure CampaignInfo where
  creator : List Nat
  total_donation_received : Nat
  latest_merkle_root : List Nat
  donation_count : Nat
  last_update_time : Int
  deriving DecidableEq, Repr

/-- The donor account (`DonerInfo` in `state/campaign_info.rs`). -/
structure DonerInfo where
  doner : List Nat
  amount : Nat
  campaign : List Nat
  deriving DecidableEq, Repr

/-- The event emitted on a successful compressed donation
(`DonationProcessedEvent` in `donate_compressed.rs`). Its `donor` field is a
`Pubkey` (32 bytes). -/
structure DonationProcessedEvent where
  campaign_id : Nat
  donor : List Nat
  amount : Nat
  timestamp : Int
  leaf_index : Nat
  merkle_root : List Nat
  deriving DecidableEq, Repr

/-- `DonateCompressed::extract_donation_data`: parse amount (bytes `[0,8)`,
LE `u64`), donor commitment (bytes `[8,40)`) and timestamp (bytes `[40,48)`,
LE `i64`) out of the proof payload; payloads shorter than 48 bytes are
rejected with `InvalidProofFormat`. -/
def extract_donation_data (proof_data : List Nat) : Except ErrorCode DonationData :=
  if proof_data.length < 48 then
    .error .InvalidProofFormat
  else
    .ok { amount := leBytesToNat (proof_data.take 8)
          donor_commitment := (proof_data.drop 8).take 32
          timestamp := leBytesToInt ((proof_data.drop 40).take 8) }

/-- Steps 1–2 of `DonateCompressed::donate_compressed`: the emptiness check
(`ErrorCode::InvalidProofData`) followed by `extract_donation_data`. This is
the complete extraction stage of the pipeline as the instruction runs it. -/
def extract_from_proof (proof_data : List Nat) : Except ErrorCode DonationData :=
  if proof_data.isEmpty then .error .InvalidProofData
  else extract_donation_data proof_data

/-- `DonateCompressed::extract_merkle_tree_update`: the source returns mock
values — leaf index `0`, the current clock timestamp, and the fixed root
`[42u8; 32]`. The clock read (`Clock::get()?.unix_timestamp`) is the `now`
parameter. -/
def extract_merkle_tree_update (now : Int) : MerkleTreeUpdate :=
  { new_merkle_root := List.replicate 32 42
    leaf_index := 0
    timestamp := now }

/-- `DonateCompressed::update_campaign_state`: assign the new Merkle root,
then `checked_add` the amount into `total_donation_received`, then
`checked_add` 1 into `donation_count`, then assign `last_update_time` — in
that order, with `ArithmeticOverflow` raised at the first failing addition.
The returned `CampaignInfo` is the account state after the call, including
the partial mutations performed before a failing step (the Rust method
mutates `self.campaign_account_info` in place). -/
def update_campaign_state (campaign : CampaignInfo) (merkle_update : MerkleTreeUpdate)
    (donation_data : DonationData) : CampaignInfo × Except ErrorCode Unit :=
  let c1 := { campaign with latest_merkle_root := merkle_update.new_merkle_root }
  match checkedAddU64 c1.total_donation_received donation_data.amount with
  | none => (c1, .error .ArithmeticOverflow)
  | some t =>
    let c2 := { c1 with total_donation_received := t }
    match checkedAddU64 c2.donation_count 1 with
    | none => (c2, .error .ArithmeticOverflow)
    | some dc =>
      ({ c2 with donation_count := dc, last_update_time := merkle_update.timestamp },
       .ok ())

/-- `DonateCompressed::donate_compressed`: the full instruction body.
`donorKey` is `self.donor.key()`; `batchAppendOk` is the outcome of the
`batch_append` CPI (step 5), which on failure is mapped to
`MerkleTreeUpdateFailed`; `now` is the clock read inside
`extract_merkle_tree_update`. On success the emitted
`DonationProcessedEvent` is returned alongside the updated campaign. -/
def donate_compressed (donorKey : List Nat) (campaign : CampaignInfo)
    (campaign_id : Nat) (proof_data : List Nat) (batchAppendOk : Bool) (now : Int) :
    CampaignInfo × Except ErrorCode DonationProcessedEvent :=
  match extract_from_proof proof_data with
  | .error e => (campaign, .error e)
  | .ok donation_data =>
    -- steps 3–4: leaf := (DonationLeaf.new donation_data campaign_id).serialize,
    -- handed to the batch_append CPI; the leaf bytes do not influence the
    -- modelled control flow beyond the CPI outcome.
    if !batchAppendOk then (campaign, .error .MerkleTreeUpdateFailed)
    else
      let updated_merkle_tree_info := extract_merkle_tree_update now
      match update_campaign_state campaign updated_merkle_tree_info donation_data with
      | (c, .error e) => (c, .error e)
      | (c, .ok _) =>
        (c, .ok { campaign_id := campaign_id
                  donor := donorKey
                  amount := donation_data.amount
                  timestamp := donation_data.timestamp
                  leaf_index := updated_merkle_tree_info.leaf_index
                  merkle_root := updated_merkle_tree_info.new_merkle_root })

/-- The error codes of `withdraw.rs` plus the propagated `transfer_checked`
CPI failure. -/
inductive WithdrawError where
  | Unauthorized
  | InsufficientFunds
  | TransferFailed
  deriving DecidableEq, Repr

/-- `Withdraw::withdraw`: require the caller to be the campaign creator,
require sufficient funds, run the token-transfer CPI (outcome `transferOk`),
then decrement `total_donation_received` by the withdrawn amount
(plain `-=`; it cannot underflow thanks to the preceding `require!`). -/
def withdraw (creatorKey : List Nat) (campaign : CampaignInfo)
    (withdraw_amount : Nat) (transferOk : Bool) :
    CampaignInfo × Except WithdrawError Unit :=
  if campaign.creator ≠ creatorKey then (campaign, .error .Unauthorized)
  else if campaign.total_donation_received < withdraw_amount then
    (campaign, .error .InsufficientFunds)
  else if !transferOk then (campaign, .error .TransferFailed)
  else
    ({ campaign with
        total_donation_received := campaign.total_donation_received - withdraw_amount },
     .ok ())

/-- `DonateAmount::donate_amount`: run the token-transfer CPI (outcome
`transferOk`), then perform the two unchecked `+=` updates on the donor's
running amount and the campaign's `total_donation_received`. Unchecked
`u64` addition wraps modulo `2^64` (release-profile semantics); no
`ArithmeticOverflow` error exists in this instruction. -/
def donate_amount (doner : DonerInfo) (campaign : CampaignInfo)
    (donation_amount : Nat) (transferOk : Bool) :
    (DonerInfo × CampaignInfo) × Except WithdrawError Unit :=
  if !transferOk then ((doner, campaign), .error .TransferFailed)
  else
    (({ doner with amount := (doner.amount + donation_amount) % 2 ^ 64 },
      { campaign with
          total_donation_received :=
            (campaign.total_donation_received + donation_amount) % 2 ^ 64 }),
     .ok ())

/-- `InitializeCampaign::init_campaign`: the fresh campaign account state,
as far as the fields modelled here go — totals zeroed, zero Merkle root,
`last_update_time` set to the current clock. -/
def init_campaign_state (creatorKey : List Nat) (now : Int) : CampaignInfo :=
  { creator := creatorKey
    total_donation_received := 0
    latest_merkle_root := List.replicate 32 0
    donation_count := 0
    last_update_time := now }

/-- `extract_leaf_components` from `ZK-STACK/tests/test_leaf_formatting.rs`:
read back `amount` (bytes `[0,8)`), `donor_commitment` (`[8,40)`),
`timestamp` (`[40,48)`) and `campaign_id` (`[48,56)`) from a serialized
leaf. The Rust function performs raw slice indexing with no length check;
on any input shorter than 56 bytes one of the slice operations panics
(index out of bounds), which the embedding renders as `none`. -/
def extract_leaf_components (leaf_data : List Nat) :
    Option (Nat × List Nat × Int × Nat) :=
  if leaf_data.length < 56 then none
  else
    some (leBytesToNat (leaf_data.take 8),
          (leaf_data.drop 8).take 32,
          leBytesToInt ((leaf_data.drop 40).take 8),
          leBytesToNat ((leaf_data.drop 48).take 8))

/-- One invocation of a state-mutating instruction exposed by the program on
an already-initialized campaign account (`init_campaign` runs once at account
creation, producing `init_campaign_state`, and cannot re-run on an existing
account thanks to Anchor's `init` constraint; `init_doner` does not touch the
campaign account). Each constructor carries the instruction's inputs and the
outcome of its external CPI / clock read. -/
inductive Op where
  | donateAmountOp (doner : DonerInfo) (donation_amount : Nat) (transferOk : Bool)
  | donateCompressedOp (donorKey : List Nat) (campaign_id : Nat)
      (proof_data : List Nat) (batchAppendOk : Bool) (now : Int)
  | withdrawOp (creatorKey : List Nat) (withdraw_amount : Nat) (transferOk : Bool)

/-- The campaign-account state after one instruction invocation (on failure,
the instruction's returned — possibly partially mutated — account state). -/
def step (campaign : CampaignInfo) : Op → CampaignInfo
  | .donateAmountOp d amt ok => ((donate_amount d campaign amt ok).1).2
  | .donateCompressedOp k cid proof ok now =>
      (donate_compressed k campaign cid proof ok now).1
  | .withdrawOp k amt ok => (withdraw k campaign amt ok).1

/-- The campaign-account state after a sequence of instruction invocations. -/
def run (campaign : CampaignInfo) (ops : List Op) : CampaignInfo :=
  ops.foldl step campaign

/-! ## Concrete inputs used by witnesses and counterexamples -/

/-- A concrete creator public key. -/
def creatorKeyA : List Nat := List.replicate 32 9

/-- A concrete donor (signer) public key. -/
def donorKeyA : List Nat := List.replicate 32 7

/-- The all-ones donor commitment used by the repository's own tests. -/
def commitA : List Nat := List.replicate 32 1

/-- The zeroed initial Merkle root. -/
def rootZero : List Nat := List.replicate 32 0

/-- A campaign mid-life: 100 lamports over 5 donations (Scenario B's start). -/
def campaignA : CampaignInfo :=
  { creator := creatorKeyA
    total_donation_received := 100
    latest_merkle_root := rootZero
    donation_count := 5
    last_update_time := 0 }

/-- A campaign whose running total sits at `u64::MAX`. -/
def campaignMax : CampaignInfo :=
  { creator := creatorKeyA
    total_donation_received := 18446744073709551615
    latest_merkle_root := rootZero
    donation_count := 5
    last_update_time := 0 }

/-- A well-formed 48-byte proof payload: amount 100, commitment `[1; 32]`,
timestamp 1652300800 (the values of the repository's tests). -/
def proofA : List Nat :=
  natToLeBytes 8 100 ++ commitA ++ natToLeBytes 8 1652300800

/-- A well-formed 48-byte proof payload carrying amount 1. -/
def proofB : List Nat := natToLeBytes 8 1 ++ commitA ++ natToLeBytes 8 7

/-- A fresh donor record bound to some campaign address. -/
def donerA : DonerInfo :=
  { doner := donorKeyA, amount := 0, campaign := rootZero }

/-- First `donate_amount` call of the overflow scenario: a freshly
initialized campaign receives a donation of `u64::MAX`. -/
def donateStep1 : (DonerInfo × CampaignInfo) × Except WithdrawError Unit :=
  donate_amount donerA (init_campaign_state creatorKeyA 0) 18446744073709551615 true

/-- Second `donate_amount` call of the overflow scenario: one more lamport,
wrapping both running totals to zero. -/
def donateStep2 : (DonerInfo × CampaignInfo) × Except WithdrawError Unit :=
  donate_amount donateStep1.1.1 donateStep1.1.2 1 true

/-- The event emitted by the concrete successful `donate_compressed` run on
`proofA`. -/
def eventA : DonationProcessedEvent :=
  { campaign_id := 5
    donor := donorKeyA
    amount := 100
    timestamp := 1652300800
    leaf_index := 0
    merkle_root := List.replicate 32 42 }

/-! ## Codec helper lemmas -/

theorem length_natToLeBytes (k n : Nat) : (natToLeBytes k n).length = k := by
  induction k generalizing n with
  | zero => rfl
  | succ k ih => simp [natToLeBytes, ih]

theorem leBytesToNat_natToLeBytes (k n : Nat) :
    leBytesToNat (natToLeBytes k n) = n % 256 ^ k := by
  induction k generalizing n with
  | zero => simp [natToLeBytes, leBytesToNat, Nat.mod_one]
  | succ k ih =>
    have hpow : (256:Nat) ^ (k + 1) = 256 * 256 ^ k := by ring
    simp only [natToLeBytes, leBytesToNat, ih]
    rw [hpow, Nat.mod_mul]

theorem natToLeBytes_leBytesToNat (bs : List Nat) (hb : ∀ b ∈ bs, b < 256) :
    natToLeBytes bs.length (leBytesToNat bs) = bs := by
  induction bs with
  | nil => rfl
  | cons b bs ih =>
    have hblt : b < 256 := hb b (List.mem_cons_self b bs)
    have hmod : (b + 256 * leBytesToNat bs) % 256 = b := by
      rw [Nat.add_mul_mod_self_left, Nat.mod_eq_of_lt hblt]
    have hdiv : (b + 256 * leBytesToNat bs) / 256 = leBytesToNat bs := by
      rw [Nat.add_mul_div_left _ _ (by norm_num : (0:Nat) < 256),
        Nat.div_eq_of_lt hblt, Nat.zero_add]
    simp only [leBytesToNat, List.length_cons, natToLeBytes, hmod, hdiv]
    rw [ih (fun x hx => hb x (List.mem_cons_of_mem b hx))]

theorem leBytesToNat_lt (bs : List Nat) (hb : ∀ b ∈ bs, b < 256) :
    leBytesToNat bs < 256 ^ bs.length := by
  induction bs with
  | nil => simp [leBytesToNat]
  | cons b bs ih =>
    have hblt : b < 256 := hb b (List.mem_cons_self b bs)
    have htail := ih (fun x hx => hb x (List.mem_cons_of_mem b hx))
    simp only [leBytesToNat, List.length_cons, pow_succ]
    calc b + 256 * leBytesToNat bs
        < 256 + 256 * leBytesToNat bs := by omega
      _ = 256 * (leBytesToNat bs + 1) := by ring
      _ ≤ 256 * 256 ^ bs.length := by
          exact Nat.mul_le_mul_left 256 (by omega)
      _ = 256 ^ bs.length * 256 := by ring

theorem two_pow_64_eq : (2:Nat) ^ 64 = 18446744073709551616 := by norm_num

theorem leBytesToInt_range (bs : List Nat) :
    -(2 ^ 63) ≤ leBytesToInt bs ∧
      (bs.length = 8 → (∀ b ∈ bs, b < 256) → leBytesToInt bs < 2 ^ 63) := by
  constructor
  · unfold leBytesToInt
    split
    · have h0 : (0:Int) ≤ (leBytesToNat bs : Int) := Int.natCast_nonneg _
      omega
    · rename_i hge
      have : (2:Int) ^ 63 ≤ (leBytesToNat bs : Int) := by exact_mod_cast Nat.le_of_not_lt hge
      omega
  · intro hlen hb
    have hlt : leBytesToNat bs < 256 ^ 8 := hlen ▸ leBytesToNat_lt bs hb
    unfold leBytesToInt
    split
    · rename_i h; exact_mod_cast h
    · have : (leBytesToNat bs : Int) < 2 ^ 64 := by exact_mod_cast (by norm_num at hlt ⊢; omega : leBytesToNat bs < 2 ^ 64)
      omega

theorem i64ToLeBytes_leBytesToInt (bs : List Nat) (hlen : bs.length = 8)
    (hb : ∀ b ∈ bs, b < 256) : i64ToLeBytes (leBytesToInt bs) = bs := by
  have hlt : leBytesToNat bs < 2 ^ 64 := by
    have := leBytesToNat_lt bs hb
    rw [hlen] at this
    norm_num at this ⊢
    omega
  have key : ((leBytesToInt bs) % (2 ^ 64 : Int)).toNat = leBytesToNat bs := by
    unfold leBytesToInt
    have hcast : ((leBytesToNat bs : Int)) < 2 ^ 64 := by exact_mod_cast hlt
    split
    · rw [Int.emod_eq_of_lt (by positivity) hcast]
      exact Int.toNat_natCast _
    · rename_i hge
      have hge' : (2:Int) ^ 63 ≤ (leBytesToNat bs : Int) := by
        exact_mod_cast Nat.le_of_not_lt hge
      have hmod : ((leBytesToNat bs : Int) - 2 ^ 64) % (2 ^ 64 : Int)
          = (leBytesToNat bs : Int) := by omega
      rw [hmod, Int.toNat_natCast]
  unfold i64ToLeBytes
  rw [key, ← hlen, natToLeBytes_leBytesToNat bs hb]

theorem leBytesToInt_i64ToLeBytes (t : Int) (h1 : -(2 ^ 63) ≤ t) (h2 : t < 2 ^ 63) :
    leBytesToInt (i64ToLeBytes t) = t := by
  have hmodrange : 0 ≤ t % (2 ^ 64 : Int) ∧ t % (2 ^ 64 : Int) < 2 ^ 64 := by
    constructor
    · exact Int.emod_nonneg t (by positivity)
    · exact Int.emod_lt_of_pos t (by positivity)
  have hn : ((t % (2 ^ 64 : Int)).toNat : Int) = t % (2 ^ 64 : Int) :=
    Int.toNat_of_nonneg hmodrange.1
  have hnlt : (t % (2 ^ 64 : Int)).toNat < 2 ^ 64 := by omega
  unfold leBytesToInt i64ToLeBytes
  rw [leBytesToNat_natToLeBytes]
  have h2566 : (256:Nat) ^ 8 = 2 ^ 64 := by norm_num
  rw [h2566, Nat.mod_eq_of_lt hnlt]
  split
  · rename_i hlt63
    have : ((t % (2 ^ 64 : Int)).toNat : Int) < 2 ^ 63 := by exact_mod_cast hlt63
    omega
  · rename_i hge63
    have : (2:Int) ^ 63 ≤ ((t % (2 ^ 64 : Int)).toNat : Int) := by
      exact_mod_cast Nat.le_of_not_lt hge63
    omega

theorem serialize_assoc2 (l : DonationLeaf) :
    l.serialize = (natToLeBytes 8 l.amount ++ l.donor_commitment)
      ++ (i64ToLeBytes l.timestamp ++ natToLeBytes 8 l.campaign_id) := by
  simp [DonationLeaf.serialize, List.append_assoc]

theorem serialize_assoc3 (l : DonationLeaf) :
    l.serialize = ((natToLeBytes 8 l.amount ++ l.donor_commitment)
      ++ i64ToLeBytes l.timestamp) ++ natToLeBytes 8 l.campaign_id := by
  simp [DonationLeaf.serialize, List.append_assoc]

/-- Positional decomposition of a serialized leaf: the four fields sit at
byte offsets 0, 8, 40 and 48, and the whole encoding is 56 bytes long. -/
theorem serialize_decomp (l : DonationLeaf) (hc : l.donor_commitment.length = 32) :
    l.serialize.length = 56 ∧
    l.serialize.take 8 = natToLeBytes 8 l.amount ∧
    (l.serialize.drop 8).take 32 = l.donor_commitment ∧
    (l.serialize.drop 40).take 8 = i64ToLeBytes l.timestamp ∧
    l.serialize.drop 48 = natToLeBytes 8 l.campaign_id := by
  have hA : (natToLeBytes 8 l.amount).length = 8 := length_natToLeBytes 8 _
  have hT : (i64ToLeBytes l.timestamp).length = 8 := length_natToLeBytes 8 _
  have hI : (natToLeBytes 8 l.campaign_id).length = 8 := length_natToLeBytes 8 _
  have hflat : l.serialize = natToLeBytes 8 l.amount ++ (l.donor_commitment
      ++ (i64ToLeBytes l.timestamp ++ natToLeBytes 8 l.campaign_id)) := by
    simp [DonationLeaf.serialize, List.append_assoc]
  refine ⟨?_, ?_, ?_, ?_, ?_⟩
  · simp [DonationLeaf.serialize, hA, hT, hI, hc]
  · rw [hflat, List.take_left' hA]
  · rw [hflat, List.drop_left' hA, List.take_left' hc]
  · rw [serialize_assoc2 l, List.drop_left' (by simp [hA, hc]),
      List.take_left' hT]
  · rw [serialize_assoc3 l, List.drop_left' (by simp [hA, hT, hc])]

/-! ## `update_campaign_state` helper lemmas -/

theorem ucs_latest_root (c : CampaignInfo) (mu : MerkleTreeUpdate) (dd : DonationData) :
    (update_campaign_state c mu dd).1.latest_merkle_root = mu.new_merkle_root := by
  by_cases h1 : c.total_donation_received + dd.amount < 18446744073709551616
  · by_cases h2 : c.donation_count + 1 < 18446744073709551616
    · simp [update_campaign_state, checkedAddU64, h1, h2]
    · simp [update_campaign_state, checkedAddU64, h1, h2]
  · simp [update_campaign_state, checkedAddU64, h1]

theorem ucs_error_preserves (c : CampaignInfo) (mu : MerkleTreeUpdate)
    (dd : DonationData) (e : ErrorCode)
    (h : (update_campaign_state c mu dd).2 = .error e) :
    (update_campaign_state c mu dd).1.donation_count = c.donation_count ∧
    (update_campaign_state c mu dd).1.last_update_time = c.last_update_time ∧
    e = .ArithmeticOverflow := by
  by_cases h1 : c.total_donation_received + dd.amount < 2 ^ 64
  · by_cases h2 : c.donation_count + 1 < 2 ^ 64
    · rw [two_pow_64_eq] at h1 h2
      simp [update_campaign_state, checkedAddU64, h1, h2] at h
    · simp only [update_campaign_state, checkedAddU64] at h ⊢
      rw [if_pos h1, if_neg h2] at h ⊢
      simp at h ⊢
      exact h.symm
  · simp only [update_campaign_state, checkedAddU64] at h ⊢
    rw [if_neg h1] at h ⊢
    simp at h ⊢
    exact h.symm

theorem ucs_ok_state (c : CampaignInfo) (mu : MerkleTreeUpdate)
    (dd : DonationData) (u : Unit)
    (h : (update_campaign_state c mu dd).2 = .ok u) :
    (update_campaign_state c mu dd).1.last_update_time = mu.timestamp ∧
    (update_campaign_state c mu dd).1.donation_count = c.donation_count + 1 ∧
    (update_campaign_state c mu dd).1.total_donation_received
      = c.total_donation_received + dd.amount := by
  by_cases h1 : c.total_donation_received + dd.amount < 18446744073709551616
  · by_cases h2 : c.donation_count + 1 < 18446744073709551616
    · simp [update_campaign_state, checkedAddU64, h1, h2]
    · simp [update_campaign_state, checkedAddU64, h1, h2] at h
  · simp [update_campaign_state, checkedAddU64, h1] at h

theorem ucs_count_le (c : CampaignInfo) (mu : MerkleTreeUpdate) (dd : DonationData) :
    c.donation_count ≤ (update_campaign_state c mu dd).1.donation_count := by
  by_cases h1 : c.total_donation_received + dd.amount < 18446744073709551616
  · by_cases h2 : c.donation_count + 1 < 18446744073709551616
    · simp [update_campaign_state, checkedAddU64, h1, h2]
    · simp [update_campaign_state, checkedAddU64, h1, h2]
  · simp [update_campaign_state, checkedAddU64, h1]

/-! ## `donate_compressed` case analysis -/

theorem donate_compressed_shape (dk : List Nat) (c : CampaignInfo) (cid : Nat)
    (p : List Nat) (ok : Bool) (now : Int) :
    (∃ e, extract_from_proof p = .error e ∧
        donate_compressed dk c cid p ok now = (c, .error e)) ∨
    (∃ dd, extract_from_proof p = .ok dd ∧ ok = false ∧
        donate_compressed dk c cid p ok now = (c, .error .MerkleTreeUpdateFailed)) ∨
    (∃ dd, extract_from_proof p = .ok dd ∧ ok = true ∧
      ((∃ e, (update_campaign_state c (extract_merkle_tree_update now) dd).2 = .error e ∧
          donate_compressed dk c cid p ok now
            = ((update_campaign_state c (extract_merkle_tree_update now) dd).1,
               .error e)) ∨
       ((update_campaign_state c (extract_merkle_tree_update now) dd).2 = .ok () ∧
          donate_compressed dk c cid p ok now
            = ((update_campaign_state c (extract_merkle_tree_update now) dd).1,
               .ok { campaign_id := cid
                     donor := dk
                     amount := dd.amount
                     timestamp := dd.timestamp
                     leaf_index := (extract_merkle_tree_update now).leaf_index
                     merkle_root := (extract_merkle_tree_update now).new_merkle_root })))) := by
  cases hex : extract_from_proof p with
  | error e => exact Or.inl ⟨e, rfl, by simp [donate_compressed, hex]⟩
  | ok dd =>
    cases ok with
    | false =>
      exact Or.inr (Or.inl ⟨dd, rfl, rfl, by simp [donate_compressed, hex]⟩)
    | true =>
      refine Or.inr (Or.inr ⟨dd, rfl, rfl, ?_⟩)
      rcases hu : update_campaign_state c (extract_merkle_tree_update now) dd with ⟨c2, r⟩
      cases r with
      | error e =>
        exact Or.inl ⟨e, rfl, by simp [donate_compressed, hex, hu]⟩
      | ok u =>
        cases u
        exact Or.inr ⟨rfl, by simp [donate_compressed, hex, hu]⟩

/-! ## Per-instruction invariance of `donation_count` -/

theorem withdraw_count_preserved (k : List Nat) (c : CampaignInfo) (amt : Nat)
    (ok : Bool) : (withdraw k c amt ok).1.donation_count = c.donation_count := by
  unfold withdraw
  split
  · rfl
  · split
    · rfl
    · split
      · rfl
      · rfl

theorem donate_amount_count_preserved (d : DonerInfo) (c : CampaignInfo)
    (amt : Nat) (ok : Bool) :
    ((donate_amount d c amt ok).1).2.donation_count = c.donation_count := by
  unfold donate_amount
  split
  · rfl
  · rfl

theorem donate_compressed_count_le (dk : List Nat) (c : CampaignInfo) (cid : Nat)
    (p : List Nat) (ok : Bool) (now : Int) :
    c.donation_count ≤ (donate_compressed dk c cid p ok now).1.donation_count := by
  rcases donate_compressed_shape dk c cid p ok now with
    ⟨e, _, heq⟩ | ⟨dd, _, _, heq⟩ | ⟨dd, _, _, hcase⟩
  · rw [heq]
  · rw [heq]
  · rcases hcase with ⟨e, _, heq⟩ | ⟨_, heq⟩ <;>
    · rw [heq]
      exact ucs_count_le c (extract_merkle_tree_update now) dd

theorem step_count_le (c : CampaignInfo) (op : Op) :
    c.donation_count ≤ (step c op).donation_count := by
  cases op with
  | donateAmountOp d amt ok =>
    exact le_of_eq (donate_amount_count_preserved d c amt ok).symm
  | donateCompressedOp k cid proof ok now =>
    exact donate_compressed_count_le k c cid proof ok now
  | withdrawOp k amt ok =>
    exact le_of_eq (withdraw_count_preserved k c amt ok).symm

/-! ## Claims

Each claim of the specification audit is settled by exactly one theorem
below (plus, where needed, a witness instantiating its hypotheses, or a
counterexample refuting the claim as originally stated). -/

/-- C1 (counterexample): the claim that every failing `donate_compressed` /
`update_campaign_state` call leaves every campaign field unchanged is false:
on a campaign whose running total is `u64::MAX`, applying a donation of 1
fails with `ArithmeticOverflow`, yet `latest_merkle_root` has already been
overwritten with the update's root before the failing checked addition. -/
theorem apply_overflow_mutates_root :
    (update_campaign_state campaignMax (extract_merkle_tree_update 1000)
        ⟨1, commitA, 7⟩).2 = .error .ArithmeticOverflow ∧
    (update_campaign_state campaignMax (extract_merkle_tree_update 1000)
        ⟨1, commitA, 7⟩).1.latest_merkle_root ≠ campaignMax.latest_merkle_root ∧
    campaignMax.total_donation_received = 18446744073709551615 := by
  decide

/-- C1 (amended): when `donate_compressed` fails, `donation_count` and
`last_update_time` are always unchanged, and for every error other than
`ArithmeticOverflow` (i.e. any failure raised before the apply step) the
whole campaign account is unchanged; an `ArithmeticOverflow` in the apply
step, however, may leave `latest_merkle_root` (and, when only the count
addition overflows, `total_donation_received`) already mutated. -/
theorem donate_compressed_error_effects (dk : List Nat) (c : CampaignInfo)
    (cid : Nat) (p : List Nat) (ok : Bool) (now : Int) (e : ErrorCode)
    (h : (donate_compressed dk c cid p ok now).2 = .error e) :
    (donate_compressed dk c cid p ok now).1.donation_count = c.donation_count ∧
    (donate_compressed dk c cid p ok now).1.last_update_time = c.last_update_time ∧
    (e ≠ .ArithmeticOverflow → (donate_compressed dk c cid p ok now).1 = c) := by
  rcases donate_compressed_shape dk c cid p ok now with
    ⟨e₂, _, heq⟩ | ⟨dd, _, _, heq⟩ | ⟨dd, _, _, hcase⟩
  · exact ⟨by rw [heq], by rw [heq], fun _ => by rw [heq]⟩
  · exact ⟨by rw [heq], by rw [heq], fun _ => by rw [heq]⟩
  · rcases hcase with ⟨e₂, hu, heq⟩ | ⟨hu, heq⟩
    · obtain ⟨hcnt, hlast, he₂⟩ :=
        ucs_error_preserves c (extract_merkle_tree_update now) dd e₂ hu
      have hee : e₂ = e := by
        rw [heq] at h
        exact Except.error.inj h
      refine ⟨by rw [heq]; exact hcnt, by rw [heq]; exact hlast, fun hne => ?_⟩
      exact absurd (by rw [← hee, he₂]) hne
    · rw [heq] at h
      simp at h

/-- C1 (witness): a concrete failing call — the empty proof payload — is
rejected with `InvalidProofData` and leaves the campaign account exactly as
it was. -/
theorem donate_compressed_error_effects_witness :
    (donate_compressed donorKeyA campaignA 5 ([] : List Nat) true 0).1 = campaignA :=
  (donate_compressed_error_effects donorKeyA campaignA 5 [] true 0
    .InvalidProofData (by decide)).2.2 (by decide)

/-- C2 (counterexample): the claim that the emitted event's donor field is
the extracted 32-byte commitment is false: on a successful run whose proof
carries commitment `[1; 32]`, the emitted event's `donor` field is the
signing donor's public key (`[7; 32]` here), not the commitment — and the
event type carries no commitment field at all. -/
theorem event_donor_is_signer_not_commitment :
    extract_from_proof proofA = .ok ⟨100, commitA, 1652300800⟩ ∧
    (donate_compressed donorKeyA campaignA 5 proofA true 1000).2 = .ok eventA ∧
    eventA.donor = donorKeyA ∧
    eventA.donor ≠ commitA := by
  decide

/-- C2 (amended): every successful `donate_compressed` call emits a
`DonationProcessedEvent` consisting of the campaign id, the signing donor's
public key (not the extracted commitment), the amount and timestamp
extracted from the proof, and the accumulator update's leaf index and new
Merkle root. -/
theorem donate_compressed_event_fields (dk : List Nat) (c : CampaignInfo)
    (cid : Nat) (p : List Nat) (ok : Bool) (now : Int) (dd : DonationData)
    (ev : DonationProcessedEvent)
    (hex : extract_from_proof p = .ok dd)
    (h : (donate_compressed dk c cid p ok now).2 = .ok ev) :
    ev.campaign_id = cid ∧ ev.donor = dk ∧ ev.amount = dd.amount ∧
    ev.timestamp = dd.timestamp ∧
    ev.leaf_index = (extract_merkle_tree_update now).leaf_index ∧
    ev.merkle_root = (extract_merkle_tree_update now).new_merkle_root := by
  rcases donate_compressed_shape dk c cid p ok now with
    ⟨e₂, hex₂, heq⟩ | ⟨dd₂, hex₂, _, heq⟩ | ⟨dd₂, hex₂, _, hcase⟩
  · rw [hex] at hex₂
    cases hex₂
  · rw [heq] at h
    simp at h
  · have hdd : dd₂ = dd := by
      rw [hex] at hex₂
      exact (Except.ok.inj hex₂).symm
    rcases hcase with ⟨e₂, hu, heq⟩ | ⟨hu, heq⟩
    · rw [heq] at h
      simp at h
    · rw [heq] at h
      have hev := Except.ok.inj h
      subst hev
      subst hdd
      exact ⟨rfl, rfl, rfl, rfl, rfl, rfl⟩

/-- C2 (witness): the concrete successful run on `proofA` emits `eventA`,
whose donor field is the signer key. -/
theorem donate_compressed_event_fields_witness :
    eventA.donor = donorKeyA :=
  (donate_compressed_event_fields donorKeyA campaignA 5 proofA true 1000
    ⟨100, commitA, 1652300800⟩ eventA (by decide) (by decide)).2.1

/-- C3 (counterexample): the claim that `total_donation_received` is
monotonically non-decreasing under all exposed operations — and that the
apply-donation step is its sole writer — is false: a successful `withdraw`
of 50 from a campaign holding 100 leaves the running total at 50. -/
theorem withdraw_decreases_total :
    (withdraw creatorKeyA campaignA 50 true).2 = .ok () ∧
    campaignA.total_donation_received = 100 ∧
    (withdraw creatorKeyA campaignA 50 true).1.total_donation_received = 50 := by
  decide

/-- C3 (amended): across every sequence of exposed operations on an
existing campaign (`donate_amount`, `donate_compressed`, `withdraw`),
`donation_count` is monotonically non-decreasing — `donate_compressed`'s
apply step is its sole writer and only ever performs a checked increment —
but `total_donation_received` is not monotone: `withdraw` decreases it and
`donate_amount`'s unchecked addition can wrap it downward. -/
theorem donation_count_monotone (c : CampaignInfo) (ops : List Op) :
    c.donation_count ≤ (run c ops).donation_count := by
  induction ops generalizing c with
  | nil => exact le_refl _
  | cons op ops ih =>
    calc c.donation_count ≤ (step c op).donation_count := step_count_le c op
      _ ≤ (run (step c op) ops).donation_count := ih _
      _ = (run c (op :: ops)).donation_count := rfl

/-- C4 (confirmed): the extraction stage (the emptiness check of
`donate_compressed` followed by `extract_donation_data`) rejects the empty
payload with `InvalidProofData` (the code's name for the spec's
`EmptyPayload`), rejects payloads of length 1–47 with `InvalidProofFormat`
(the spec's `MalformedPayload`), and succeeds on any payload of at least 48
bytes, reading the amount from bytes `[0,8)` as little-endian `u64` (the
first 8 bytes are exactly its LE encoding), the commitment from `[8,40)`,
and the timestamp from `[40,48)` as little-endian `i64`; bytes at offset 48
and beyond have no effect (extraction agrees with extraction on the 48-byte
prefix). -/
theorem extract_from_proof_spec (p : List Nat) (hb : ∀ b ∈ p, b < 256) :
    (p.length = 0 → extract_from_proof p = .error .InvalidProofData) ∧
    (1 ≤ p.length → p.length < 48 →
      extract_from_proof p = .error .InvalidProofFormat) ∧
    (48 ≤ p.length →
      extract_from_proof p =
        .ok { amount := leBytesToNat (p.take 8)
              donor_commitment := (p.drop 8).take 32
              timestamp := leBytesToInt ((p.drop 40).take 8) } ∧
      natToLeBytes 8 (leBytesToNat (p.take 8)) = p.take 8 ∧
      i64ToLeBytes (leBytesToInt ((p.drop 40).take 8)) = (p.drop 40).take 8 ∧
      extract_from_proof (p.take 48) = extract_from_proof p) := by
  refine ⟨?_, ?_, ?_⟩
  · intro h0
    have hnil : p = [] := List.length_eq_zero.mp h0
    subst hnil
    rfl
  · intro hge hlt
    have hne : p.isEmpty = false := by
      cases p
      · simp at hge
      · rfl
    simp [extract_from_proof, extract_donation_data, hne, hlt]
  · intro h48
    have hne : p.isEmpty = false := by
      cases p
      · simp at h48
      · rfl
    have hnlt : ¬p.length < 48 := by omega
    refine ⟨by simp [extract_from_proof, extract_donation_data, hne, hnlt], ?_, ?_, ?_⟩
    · have hlen8 : (p.take 8).length = 8 := by
        rw [List.length_take]
        omega
      have hbb : ∀ b ∈ p.take 8, b < 256 := fun b hm => hb b (List.take_subset _ _ hm)
      calc natToLeBytes 8 (leBytesToNat (p.take 8))
          = natToLeBytes (p.take 8).length (leBytesToNat (p.take 8)) := by rw [hlen8]
        _ = p.take 8 := natToLeBytes_leBytesToNat _ hbb
    · have hlen8 : ((p.drop 40).take 8).length = 8 := by
        rw [List.length_take, List.length_drop]
        omega
      have hbb : ∀ b ∈ (p.drop 40).take 8, b < 256 :=
        fun b hm => hb b (List.drop_subset _ _ (List.take_subset _ _ hm))
      exact i64ToLeBytes_leBytesToInt _ hlen8 hbb
    · have hlen48 : (p.take 48).length = 48 := by
        rw [List.length_take]
        omega
      have hne' : (p.take 48).isEmpty = false := by
        rcases hp : p.take 48 with _ | ⟨x, xs⟩
        · rw [hp] at hlen48
          simp at hlen48
        · rfl
      have hnlt' : ¬(p.take 48).length < 48 := by omega
      simp only [extract_from_proof, hne', hne, Bool.false_eq_true, if_false,
        extract_donation_data, hnlt', hnlt]
      rw [List.take_take, List.drop_take, List.take_take, List.drop_take,
        List.take_take]
      norm_num

/-- C4 (witness): the concrete 48-byte payload `proofA` (amount 100,
commitment `[1; 32]`, timestamp 1652300800) is accepted and decoded to its
positional fields. -/
theorem extract_from_proof_spec_witness :
    extract_from_proof proofA =
      .ok { amount := leBytesToNat (proofA.take 8)
            donor_commitment := (proofA.drop 8).take 32
            timestamp := leBytesToInt ((proofA.drop 40).take 8) } :=
  ((extract_from_proof_spec proofA (by decide)).2.2 (by decide)).1

/-- C5 (confirmed): leaf encoding (`DonationLeaf::serialize`) is total and
deterministic; it produces exactly 56 bytes laid out as the little-endian
amount (8 bytes), the 32-byte commitment, the little-endian timestamp
(8 bytes) and the little-endian campaign id (8 bytes), with no hashing —
the amount and campaign id are recoverable verbatim from their byte
ranges, and the encoding depends only on the four field values. -/
theorem leaf_serialize_layout (l : DonationLeaf)
    (hc : l.donor_commitment.length = 32) (ha : l.amount < 2 ^ 64)
    (hcid : l.campaign_id < 2 ^ 64) :
    l.serialize.length = 56 ∧
    l.serialize.take 8 = natToLeBytes 8 l.amount ∧
    leBytesToNat (l.serialize.take 8) = l.amount ∧
    (l.serialize.drop 8).take 32 = l.donor_commitment ∧
    (l.serialize.drop 40).take 8 = i64ToLeBytes l.timestamp ∧
    l.serialize.drop 48 = natToLeBytes 8 l.campaign_id ∧
    leBytesToNat (l.serialize.drop 48) = l.campaign_id ∧
    ∀ l₂ : DonationLeaf, l₂.amount = l.amount →
      l₂.donor_commitment = l.donor_commitment → l₂.timestamp = l.timestamp →
      l₂.campaign_id = l.campaign_id → l₂.serialize = l.serialize := by
  obtain ⟨h1, h2, h3, h4, h5⟩ := serialize_decomp l hc
  have h2564 : (256:Nat) ^ 8 = 2 ^ 64 := by norm_num
  refine ⟨h1, h2, ?_, h3, h4, h5, ?_, ?_⟩
  · rw [h2, leBytesToNat_natToLeBytes, h2564, Nat.mod_eq_of_lt ha]
  · rw [h5, leBytesToNat_natToLeBytes, h2564, Nat.mod_eq_of_lt hcid]
  · intro l₂ e1 e2 e3 e4
    unfold DonationLeaf.serialize
    rw [e1, e2, e3, e4]

/-- C5 (witness): the test vector leaf (amount 100, commitment `[1; 32]`,
timestamp 1652300800, campaign 12345) encodes to exactly 56 bytes. -/
theorem leaf_serialize_layout_witness :
    (DonationLeaf.mk 100 commitA 1652300800 12345).serialize.length = 56 :=
  (leaf_serialize_layout (DonationLeaf.mk 100 commitA 1652300800 12345)
    (by decide) (by decide) (by decide)).1

/-- C6 (confirmed): decoding (the test suite's `extract_leaf_components`)
recovers exactly the amount, commitment, timestamp and campaign id from the
56-byte encoding of any donation facts (encode/decode round-trip). -/
theorem leaf_roundtrip (dd : DonationData) (cid : Nat)
    (hc : dd.donor_commitment.length = 32) (ha : dd.amount < 2 ^ 64)
    (hcid : cid < 2 ^ 64) (ht1 : -(2 ^ 63) ≤ dd.timestamp)
    (ht2 : dd.timestamp < 2 ^ 63) :
    extract_leaf_components ((DonationLeaf.new dd cid).serialize)
      = some (dd.amount, dd.donor_commitment, dd.timestamp, cid) := by
  obtain ⟨h1, h2, h3, h4, h5⟩ := serialize_decomp (DonationLeaf.new dd cid) hc
  have h2564 : (256:Nat) ^ 8 = 2 ^ 64 := by norm_num
  unfold extract_leaf_components
  rw [if_neg (by omega)]
  rw [h2, h3, h4, h5]
  simp only [DonationLeaf.new]
  rw [List.take_of_length_le (le_of_eq (length_natToLeBytes 8 cid))]
  rw [leBytesToNat_natToLeBytes, h2564, Nat.mod_eq_of_lt ha,
    leBytesToNat_natToLeBytes, h2564, Nat.mod_eq_of_lt hcid,
    leBytesToInt_i64ToLeBytes _ ht1 ht2]

/-- C6 (witness): the repository's own test vector round-trips. -/
theorem leaf_roundtrip_witness :
    extract_leaf_components
        ((DonationLeaf.new ⟨100, commitA, 1652300800⟩ 12345).serialize)
      = some (100, commitA, 1652300800, 12345) :=
  leaf_roundtrip ⟨100, commitA, 1652300800⟩ 12345 (by decide) (by decide)
    (by decide) (by decide) (by decide)

/-- C7 (counterexample): the claim that decoding a byte sequence shorter
than 56 bytes returns a `TruncatedLeaf` error kind is false: the code
defines no such error kind, performs no length validation, and on the
concrete 3-byte input `[1, 2, 3]` the slice operation panics (index out of
bounds, rendered as `none` in the embedding) instead of returning any error
value. -/
theorem decode_short_input_aborts :
    extract_leaf_components [1, 2, 3] = none := by decide

/-- C7 (amended): the leaf decode helper aborts (slice-bounds panic, `none`
in the embedding) exactly on inputs shorter than 56 bytes; it never returns
a `TruncatedLeaf`-style error value, and on inputs of 56 bytes or more it
succeeds. -/
theorem decode_none_iff_short (bs : List Nat) :
    extract_leaf_components bs = none ↔ bs.length < 56 := by
  unfold extract_leaf_components
  split
  · rename_i h
    simp [h]
  · rename_i h
    simp [h]

/-- C8 (confirmed): when neither addition overflows, a successful apply
(`update_campaign_state`) sets `latest_merkle_root` to the update's new
root, adds exactly the donation amount to `total_donation_received`, adds
exactly 1 to `donation_count`, and sets `last_update_time` to the update's
timestamp. -/
theorem apply_donation_success (c : CampaignInfo) (mu : MerkleTreeUpdate)
    (dd : DonationData)
    (h1 : c.total_donation_received + dd.amount < 2 ^ 64)
    (h2 : c.donation_count + 1 < 2 ^ 64) :
    update_campaign_state c mu dd =
      ({ c with latest_merkle_root := mu.new_merkle_root
                total_donation_received := c.total_donation_received + dd.amount
                donation_count := c.donation_count + 1
                last_update_time := mu.timestamp }, .ok ()) := by
  rw [two_pow_64_eq] at h1 h2
  simp [update_campaign_state, checkedAddU64, h1, h2]

/-- C8 (witness, Scenario B): starting from `{total_received: 100,
donation_count: 5}`, applying a donation of 50 with update timestamp
1652400000 yields `{total_received: 150, donation_count: 6,
last_update_time: 1652400000}`. -/
theorem apply_donation_success_witness :
    update_campaign_state campaignA
        ⟨List.replicate 32 3, 0, 1652400000⟩ ⟨50, commitA, 123⟩ =
      ({ creator := creatorKeyA
         total_donation_received := 150
         latest_merkle_root := List.replicate 32 3
         donation_count := 6
         last_update_time := 1652400000 }, .ok ()) :=
  apply_donation_success campaignA ⟨List.replicate 32 3, 0, 1652400000⟩
    ⟨50, commitA, 123⟩ (by decide) (by decide)

/-- C9 (confirmed): every successful `donate_compressed` call folds in a
constant mock accumulator update — the campaign's `latest_merkle_root`
becomes the fixed value `[42u8; 32]`, the emitted event's `leaf_index` is
0 and its `merkle_root` is the same fixed value, and `last_update_time` is
the current clock timestamp — none of which comes from the external
accumulator's response. -/
theorem mock_accumulator_values (dk : List Nat) (c : CampaignInfo) (cid : Nat)
    (p : List Nat) (ok : Bool) (now : Int) (ev : DonationProcessedEvent)
    (h : (donate_compressed dk c cid p ok now).2 = .ok ev) :
    (donate_compressed dk c cid p ok now).1.latest_merkle_root
      = List.replicate 32 42 ∧
    ev.leaf_index = 0 ∧
    ev.merkle_root = List.replicate 32 42 ∧
    (donate_compressed dk c cid p ok now).1.last_update_time = now := by
  rcases donate_compressed_shape dk c cid p ok now with
    ⟨e₂, _, heq⟩ | ⟨dd, _, _, heq⟩ | ⟨dd, _, _, hcase⟩
  · rw [heq] at h
    simp at h
  · rw [heq] at h
    simp at h
  · rcases hcase with ⟨e₂, hu, heq⟩ | ⟨hu, heq⟩
    · rw [heq] at h
      simp at h
    · obtain ⟨hlast, _, _⟩ :=
        ucs_ok_state c (extract_merkle_tree_update now) dd () hu
      rw [heq] at h
      have hev := Except.ok.inj h
      subst hev
      refine ⟨?_, rfl, rfl, ?_⟩
      · rw [heq]
        exact ucs_latest_root c (extract_merkle_tree_update now) dd
      · rw [heq]
        exact hlast

/-- C9 (witness): the concrete successful run on `proofA` leaves the
campaign's root at the mock value `[42; 32]`. -/
theorem mock_accumulator_values_witness :
    (donate_compressed donorKeyA campaignA 5 proofA true 1000).1.latest_merkle_root
      = List.replicate 32 42 :=
  (mock_accumulator_values donorKeyA campaignA 5 proofA true 1000 eventA
    (by decide)).1

/-- C10 (confirmed): `donate_amount` updates the donor's running amount and
the campaign's `total_donation_received` with unchecked (wrapping)
additions: starting from a freshly initialized campaign and donor, a
donation of `u64::MAX` succeeds, and a subsequent donation of 1 — whose
true sum exceeds the 64-bit range — also returns success while both
counters silently wrap to 0; no `ArithmeticOverflow` error kind is ever
returned (none exists in this instruction). -/
theorem donate_amount_unchecked_overflow :
    donateStep1.2 = .ok () ∧
    donateStep1.1.1.amount = 18446744073709551615 ∧
    donateStep1.1.2.total_donation_received = 18446744073709551615 ∧
    donateStep2.2 = .ok () ∧
    donateStep2.1.1.amount = 0 ∧
    donateStep2.1.2.total_donation_received = 0 := by
  decide

end HOB
